import Mathlib

/-!
Verification development for the app2nix repository (Rust sources under src/).

The development shallowly embeds the library-dependency resolution engine:

* `src/readfile_nix.rs`: the static knowledge base (`SYSTEM_LIBS`,
  `LIB_TO_PKG_MAP`), the external-index lookup `resolve_lib_via_locate`,
  the resolver `scan_binary_and_resolve`, and the driver `get_nix_shell`.
* `src/main.rs`: the inline dependency-analysis pipeline of `main`
  (`check_common_libs`, the internal/needed set difference, the
  `nix-locate` line choice, the qt5/qt6 reconciliation, the final sort).
* `src/configuration.rs`: the cached knowledge-base loader
  (`get_libraries_config`, `is_system_lib`, `get_pkg_for_lib`).

External subprocess calls (`nix-locate`, `patchelf`, `ar`, `dpkg`) are
modelled as oracle parameters giving the observable result of each call
(launch success, exit status, stdout lines), so the pure resolution logic
is embedded exactly as written in the source.
-/

namespace App2nix

/-! ### String primitives

The Rust source manipulates strings with `trim`, `split`, `starts_with`,
`contains` and byte-slicing. These are modelled over the character list
of the Lean string (the inputs of interest are ASCII), with definitions
that the kernel can evaluate on concrete data. -/

/-- ASCII whitespace, for modelling Rust `str::trim` on tool output. -/
def isWsChar (c : Char) : Bool :=
  c = ' ' || c = '\t' || c = '\n' || c = '\r'

/-- Remove leading and trailing whitespace from a character list. -/
def trimList (l : List Char) : List Char :=
  ((l.dropWhile isWsChar).reverse.dropWhile isWsChar).reverse

/-- Rust `str::trim`. -/
def rustTrim (s : String) : String :=
  String.mk (trimList s.toList)

/-- Rust `str::split(c)`: split at every occurrence of `c`; always yields
at least one (possibly empty) part. -/
def splitChar (c : Char) (l : List Char) : List (List Char) :=
  l.foldr
    (fun x acc =>
      match acc with
      | [] => [[x]]
      | a :: rest => if x = c then [] :: a :: rest else (x :: a) :: rest)
    [[]]

/-- Test that the first list is a leading segment of the second
(Rust `str::starts_with`). -/
def startsWithList : List Char → List Char → Bool
  | [], _ => true
  | _ :: _, [] => false
  | p :: ps, s :: ss => p = s && startsWithList ps ss

/-- Rust `s.starts_with(pat)`. -/
def rustStartsWith (s pat : String) : Bool :=
  startsWithList pat.toList s.toList

/-- Test that `pat` occurs as a contiguous run inside the second list. -/
def containsSubList (pat : List Char) : List Char → Bool
  | [] => startsWithList pat []
  | c :: t => startsWithList pat (c :: t) || containsSubList pat t

/-- Rust `hay.contains(pat)` for a string pattern. -/
def strContains (hay pat : String) : Bool :=
  containsSubList pat.toList hay.toList

/-- Rust `s.contains(c)` for a character pattern. -/
def strContainsChar (s : String) (c : Char) : Bool :=
  s.toList.contains c

/-- Rust byte slicing `s[n..]` on ASCII prefixes (drop the first `n`
characters). -/
def rustDrop (s : String) (n : Nat) : String :=
  String.mk (s.toList.drop n)

/-- Lexicographic comparison of character lists by code point, the order
of Rust `Vec::<String>::sort()`. -/
def leChars : List Char → List Char → Bool
  | [], _ => true
  | _ :: _, [] => false
  | a :: as1, b :: bs1 => if a = b then leChars as1 bs1 else decide (a.toNat < b.toNat)

/-- Lexicographic order on strings. -/
def strLe (a b : String) : Bool :=
  leChars a.toList b.toList

/-- The lexicographic order as a relation, for the sorting lemmas. -/
def strLeRel : String → String → Prop :=
  fun a b => strLe a b = true

instance : DecidableRel strLeRel :=
  fun a b => Bool.decEq (strLe a b) true

/-- Lexicographic sort, modelling `Vec::<String>::sort()`. -/
def strSort (l : List String) : List String :=
  List.insertionSort strLeRel l

/-- Association-list lookup, modelling `HashMap::get` on maps whose keys are
distinct (first match wins, which agrees with `HashMap` on distinct keys). -/
def lookupMap (m : List (String × String)) (k : String) : Option String :=
  (m.find? (fun p => p.1 == k)).map (fun p => p.2)

/-- Embedding of `SYSTEM_LIBS` from src/readfile_nix.rs lines 10-23. -/
def SYSTEM_LIBS : List String :=
  ["libc.so.6", "libm.so.6", "libdl.so.2", "libpthread.so.0", "librt.so.1",
   "libutil.so.1", "libresolv.so.2", "ld-linux-x86-64.so.2",
   "libgcc_s.so.1", "libstdc++.so.6"]

/-- Embedding of `LIB_TO_PKG_MAP` from src/readfile_nix.rs lines 26-85. -/
def LIB_TO_PKG_MAP : List (String × String) :=
  [("libglib-2.0.so.0", "glib"),
   ("libgobject-2.0.so.0", "glib"),
   ("libgio-2.0.so.0", "glib"),
   ("libgtk-3.so.0", "gtk3"),
   ("libgdk-3.so.0", "gtk3"),
   ("libpango-1.0.so.0", "pango"),
   ("libpangocairo-1.0.so.0", "pango"),
   ("libcairo.so.2", "cairo"),
   ("libcairo-gobject.so.2", "cairo"),
   ("libgdk_pixbuf-2.0.so.0", "gdk-pixbuf"),
   ("libatk-1.0.so.0", "at-spi2-atk"),
   ("libatk-bridge-2.0.so.0", "at-spi2-atk"),
   ("libatspi.so.0", "at-spi2-core"),
   ("libdbus-1.so.3", "dbus"),
   ("libX11.so.6", "xorg.libX11"),
   ("libxcb.so.1", "xorg.libxcb"),
   ("libXcomposite.so.1", "xorg.libXcomposite"),
   ("libXdamage.so.1", "xorg.libXdamage"),
   ("libXext.so.6", "xorg.libXext"),
   ("libXfixes.so.3", "xorg.libXfixes"),
   ("libXrandr.so.2", "xorg.libXrandr"),
   ("libXrender.so.1", "xorg.libXrender"),
   ("libxshmfence.so.1", "libxshmfence"),
   ("libdrm.so.2", "libdrm"),
   ("libgbm.so.1", "mesa"),
   ("libGL.so.1", "libglvnd"),
   ("libEGL.so.1", "libglvnd"),
   ("libGLESv2.so.2", "libglvnd"),
   ("libvulkan.so.1", "vulkan-loader"),
   ("libnspr4.so", "nspr"),
   ("libnss3.so", "nss"),
   ("libnssutil3.so", "nss"),
   ("libsmime3.so", "nss"),
   ("libssl.so.3", "openssl"),
   ("libcrypto.so.3", "openssl"),
   ("libsecret-1.so.0", "libsecret"),
   ("libz.so.1", "zlib"),
   ("libexpat.so.1", "expat"),
   ("libuuid.so.1", "libuuid"),
   ("libcups.so.2", "cups"),
   ("libasound.so.2", "alsa-lib"),
   ("libfreetype.so.6", "freetype"),
   ("libfontconfig.so.1", "fontconfig"),
   ("libxkbcommon.so.0", "libxkbcommon"),
   ("libffmpeg.so", "ffmpeg")]

/-- Observable behaviour of the `nix-locate` collaborator as used by
`resolve_lib_via_locate` (src/readfile_nix.rs lines 99-144):
`available` is whether the `which nix-locate` probe launches; `strict` is
the result of the `--at-root --whole-name /lib/<lib>` query (`none` when
the subprocess fails to launch, otherwise exit-status flag and stdout
lines); `loose` is the result of the `--defined --whole-name <lib>` query
(its exit status is never consulted by the source). -/
structure LocateOracle where
  available : Bool
  strict : String → Option (Bool × List String)
  loose : String → Option (List String)

/-- Last `.`-separated segment, as in
`trimmed.split('.').collect::...; parts.last().unwrap_or(trimmed)`
(src/readfile_nix.rs lines 122-123). -/
def lastDotSegment (s : String) : String :=
  String.mk (((splitChar '.' s.toList).getLast?).getD s.toList)

/-- The per-query line handling of `resolve_lib_via_locate`: look only at
the first stdout line; if it trims to non-empty, return its last dotted
segment (src/readfile_nix.rs lines 119-124 and 135-140). -/
def firstLinePkg (lines : List String) : Option String :=
  match lines with
  | [] => none
  | line :: _ =>
    if rustTrim line = "" then none else some (lastDotSegment (rustTrim line))

/-- Embedding of `resolve_lib_via_locate` from src/readfile_nix.rs lines 99-144. -/
def resolve_lib_via_locate (loc : LocateOracle) (lib : String) : Option String :=
  match lookupMap LIB_TO_PKG_MAP lib with
  | some pkg => some pkg
  | none =>
    if !loc.available then none
    else
      match loc.strict lib with
      | none => none
      | some (succ, lines) =>
        match (if succ then firstLinePkg lines else none) with
        | some pkg => some pkg
        | none =>
          match loc.loose lib with
          | none => none
          | some lines2 => firstLinePkg lines2

/-- The per-line admission test of the scanning loop in
`scan_binary_and_resolve` (src/readfile_nix.rs lines 212-224): a trimmed
patchelf output line enters `needed_libs` when it is non-empty, not a
system library, and either explicitly mapped or not among the bundled
file names. -/
def neededPred (bundled : List String) (lib : String) : Bool :=
  decide (lib ≠ "" ∧ lib ∉ SYSTEM_LIBS ∧
    ((lookupMap LIB_TO_PKG_MAP lib).isSome = true ∨ lib ∉ bundled))

/-- The `needed_libs` set built by `scan_binary_and_resolve`
(src/readfile_nix.rs lines 199-227), from the raw patchelf output lines
(`required`) and the bundled file-name set (`bundled`); the `HashSet` is
modelled as a deduplicated list. -/
def neededLibs (required bundled : List String) : List String :=
  ((required.map rustTrim).filter (neededPred bundled)).dedup

/-- The resolution phase of `scan_binary_and_resolve`
(src/readfile_nix.rs lines 229-248): resolve each needed library, collect
package names into `resolved_packages` and failures into `missing_libs`,
then sort both lists. -/
def scanResolveCore (loc : LocateOracle) (required bundled : List String) :
    List String × List String :=
  let needed := neededLibs required bundled
  let resolvedList := (needed.filterMap (resolve_lib_via_locate loc)).dedup
  let missingList := needed.filter (fun lib => (resolve_lib_via_locate loc lib).isNone)
  (strSort resolvedList, strSort missingList)

/-- Embedding of `scan_binary_and_resolve` from src/readfile_nix.rs lines 146-249.
`arOk` is the exit status of `ar x`, `dataTarFound` whether a
`data.tar.*` member was found, `tarOk` the exit status of `tar xf`
(whose failure only prints a warning and continues). -/
def scan_binary_and_resolve (arOk dataTarFound tarOk : Bool) (loc : LocateOracle)
    (required bundled : List String) : Except String (List String × List String) :=
  if !arOk then Except.error "Failed to unpack deb archive"
  else if !dataTarFound then Except.error "Could not find data.tar.* archive inside deb"
  else
    -- tarOk failure path: only `eprintln!` of a warning, scan continues
    let _ := tarOk
    Except.ok (scanResolveCore loc required bundled)

/-- Embedding of `PackageInfo` from src/structs.rs lines 10-18, with `Default` values. -/
structure PackageInfo where
  name : String := ""
  version : String := ""
  deps : List String := []
  arch : String := ""
  description : String := ""
  meta : String := ""
  deriving Repr, DecidableEq

/-- The architecture normalisation of `get_nix_shell`
(src/readfile_nix.rs lines 282-286). -/
def normalizeArch (arch : String) : String :=
  if arch = "amd64" then "x86_64-linux"
  else if arch = "arm64" then "aarch64-linux"
  else arch

/-- One control-field line of `dpkg --info` output applied to the
`PackageInfo` under construction (src/readfile_nix.rs lines 275-290). -/
def applyInfoLine (info : PackageInfo) (line : String) : PackageInfo :=
  if rustStartsWith line "Package: " then
    { info with name := rustTrim (rustDrop line ("Package: ".length)) }
  else if rustStartsWith line "Version: " then
    { info with version := rustTrim (rustDrop line ("Version: ".length)) }
  else if rustStartsWith line "Architecture: " then
    { info with arch := normalizeArch (rustTrim (rustDrop line ("Architecture: ".length))) }
  else if rustStartsWith line "Description: " then
    { info with description := rustTrim (rustDrop line ("Description: ".length)) }
  else info

/-- Embedding of `get_nix_shell` from src/readfile_nix.rs lines 251-315.
`metaCmd` is the observable result of the `dpkg --info` call (after the
`nix-shell` fallback): `Except.error` when the chosen command failed to
launch, otherwise its exit-status flag and trimmed stdout lines.
`scan` is the result of `scan_binary_and_resolve`; on its error the
source only logs and continues with the metadata-only `PackageInfo`. -/
def get_nix_shell (filename : String) (skipDeps : Bool)
    (metaCmd : Except String (Bool × List String))
    (scan : Except String (List String × List String)) :
    Except String PackageInfo :=
  if filename = "" then Except.error "Filename cannot be empty"
  else
    match metaCmd with
    | Except.error e => Except.error ("Failed to read deb info: " ++ e)
    | Except.ok (succ, lines) =>
      let info : PackageInfo :=
        if succ then lines.foldl applyInfoLine {} else {}
      if skipDeps then Except.ok info
      else
        match scan with
        | Except.ok (deps, _missing) => Except.ok { info with deps := deps }
        | Except.error _ => Except.ok info

/-! ## The inline pipeline of `main` (src/main.rs) -/

/-- The match table of `check_common_libs` from src/main.rs lines 20-73,
written as an association list in source order (the match arms are
pairwise-distinct string literals, so first-match lookup coincides with
the match). -/
def CHECK_COMMON_LIBS : List (String × String) :=
  [("libgtk-3.so.0", "gtk3"), ("libgdk-3.so.0", "gtk3"),
   ("libgtk-x11-2.0.so.0", "gtk2"),
   ("libglib-2.0.so.0", "glib"), ("libgobject-2.0.so.0", "glib"),
   ("libgio-2.0.so.0", "glib"),
   ("libpango-1.0.so.0", "pango"), ("libpangocairo-1.0.so.0", "pango"),
   ("libpangoft2-1.0.so.0", "pango"),
   ("libcairo.so.2", "cairo"), ("libcairo-gobject.so.2", "cairo"),
   ("libgdk_pixbuf-2.0.so.0", "gdk-pixbuf"),
   ("libatk-1.0.so.0", "at-spi2-atk"), ("libatk-bridge-2.0.so.0", "at-spi2-atk"),
   ("libatspi.so.0", "at-spi2-atk"),
   ("libQt5Core.so.5", "qt5.qtbase"), ("libQt5Gui.so.5", "qt5.qtbase"),
   ("libQt5Widgets.so.5", "qt5.qtbase"),
   ("libQt5X11Extras.so.5", "qt5.qtx11extras"),
   ("libQt6Core.so.6", "qt6.qtbase"), ("libQt6Gui.so.6", "qt6.qtbase"),
   ("libQt6Widgets.so.6", "qt6.qtbase"),
   ("libX11.so.6", "xorg.libX11"), ("libX11-xcb.so.1", "xorg.libX11"),
   ("libXcomposite.so.1", "xorg.libXcomposite"),
   ("libXdamage.so.1", "xorg.libXdamage"),
   ("libXext.so.6", "xorg.libXext"),
   ("libXfixes.so.3", "xorg.libXfixes"),
   ("libXrandr.so.2", "xorg.libXrandr"),
   ("libXrender.so.1", "xorg.libXrender"),
   ("libxcb.so.1", "xorg.libxcb"), ("libxcb-dri3.so.0", "xorg.libxcb"),
   ("libxkbcommon.so.0", "libxkbcommon"),
   ("libxshmfence.so.1", "libxshmfence"),
   ("libgbm.so.1", "mesa"),
   ("libdrm.so.2", "libdrm"),
   ("libGL.so.1", "libglvnd"), ("libEGL.so.1", "libglvnd"),
   ("libGLESv2.so.2", "libglvnd"),
   ("libvulkan.so.1", "vulkan-loader"),
   ("libasound.so.2", "alsa-lib"),
   ("libpulse.so.0", "libpulseaudio"),
   ("libnss3.so", "nss"), ("libnssutil3.so", "nss"), ("libsmime3.so", "nss"),
   ("libnspr4.so", "nspr"),
   ("libcups.so.2", "cups"),
   ("libdbus-1.so.3", "dbus"),
   ("libexpat.so.1", "expat"),
   ("libudev.so.1", "systemd"),
   ("libz.so.1", "zlib"),
   ("libc.so.6", "glibc"), ("libm.so.6", "glibc"),
   ("libpthread.so.0", "glibc"), ("libdl.so.2", "glibc"),
   ("libgcc_s.so.1", "libgcc"), ("libstdc++.so.6", "libgcc")]

/-- Embedding of `check_common_libs` from src/main.rs lines 20-73. -/
def check_common_libs (lib : String) : Option String :=
  lookupMap CHECK_COMMON_LIBS lib

/-- The candidate-line choice of the `nix-locate` branch in `main`
(src/main.rs lines 286-291): first stdout line not containing a
parenthesis; inserted whole (trimmed) when non-empty. -/
def mainLocatePick (lines : List String) : Option String :=
  match lines.find? (fun l => !(strContainsChar l '(')) with
  | none => none
  | some pkg => if rustTrim pkg = "" then none else some (rustTrim pkg)

/-- The implicit `pkg_map` seed of `main` (src/main.rs lines 269-277),
present only for Deb packages. -/
def seedPkgs (isDeb : Bool) : List String :=
  if isDeb then ["glibc", "libgcc", "libglvnd", "mesa", "libdrm", "vulkan-loader"]
  else []

/-- Key insertion into the `pkg_map` key set (`HashMap::insert` adds the
key when absent; values are irrelevant to the final key list). -/
def insertKey (acc : List String) (k : String) : List String :=
  if k ∈ acc then acc else acc ++ [k]

/-- One iteration of the resolving loop of `main`
(src/main.rs lines 280-292). `locate` gives the stdout lines of the
`nix-locate` call, `none` when the subprocess fails to launch. -/
def mainResolveStep (locate : String → Option (List String))
    (acc : List String) (lib : String) : List String :=
  if rustStartsWith lib "ld-linux" then acc
  else
    match check_common_libs lib with
    | some pkg => insertKey acc pkg
    | none =>
      match locate lib with
      | some lines =>
        match mainLocatePick lines with
        | some pkg => insertKey acc pkg
        | none => acc
      | none => acc

/-- The dependency-analysis and resolution block of `main`
(src/main.rs lines 252-292), producing the key set of `pkg_map`.
`entryNames` are the file names of all walked directory entries
(`internal_libs` keeps those containing ".so"); `patchelfLines` are all
stdout lines of the per-file `patchelf --print-needed` calls
(`all_needed` keeps the trimmed non-empty ones); `missing_libs` is their
set difference. -/
def mainPkgKeys (isDeb : Bool) (locate : String → Option (List String))
    (entryNames patchelfLines : List String) : List String :=
  let internal := entryNames.filter (fun n => strContains n ".so")
  let allNeeded := ((patchelfLines.map rustTrim).filter (fun l => decide (l ≠ ""))).dedup
  let missing := allNeeded.filter (fun l => decide (l ∉ internal))
  missing.foldl (mainResolveStep locate) (seedPkgs isDeb)

/-- The qt5/qt6 conflict reconciliation of `main`
(src/main.rs lines 294-297), on the key set of `pkg_map`. -/
def reconcile (pkgs : List String) : List String :=
  if "qt6.qtbase" ∈ pkgs ∧ "qt5.qtbase" ∈ pkgs then
    pkgs.filter (fun k => !(rustStartsWith k "qt5"))
  else pkgs

/-! ## The cached knowledge-base loader (src/configuration.rs) -/

/-- Embedding of `LibrariesConfig` from src/structs.rs as used by
src/configuration.rs: the loaded system-library list and the
library-to-package map. -/
structure LibrariesConfig where
  system_libs : List String
  lib_to_pkg_map : List (String × String)
  deriving Repr, DecidableEq

/-- The hardcoded fallback configuration of `get_libraries_config`
(src/configuration.rs lines 54-68). -/
def defaultLibrariesConfig : LibrariesConfig :=
  { system_libs :=
      ["libc.so.6", "libm.so.6", "libdl.so.2", "libpthread.so.0",
       "librt.so.1", "libutil.so.1", "libresolv.so.2",
       "ld-linux-x86-64.so.2", "libgcc_s.so.1", "libstdc++.so.6"],
    lib_to_pkg_map := [] }

/-- Embedding of `get_libraries_config` from src/configuration.rs lines 50-71.
The `OnceLock` cell is modelled as explicit state: `cache` is the cell
content before the call, `loadResult` the outcome `load_libraries_config`
would produce (read + parse of the configuration file). Returns the
configuration handed to the caller together with the cell content after
the call. -/
def get_libraries_config (cache : Option LibrariesConfig)
    (loadResult : Except String LibrariesConfig) :
    LibrariesConfig × Option LibrariesConfig :=
  match cache with
  | some c => (c, some c)
  | none =>
    let c :=
      match loadResult with
      | Except.ok c => c
      | Except.error _ => defaultLibrariesConfig
    (c, some c)

/-- Embedding of `is_system_lib` from src/configuration.rs lines 42-44. -/
def is_system_lib (cache : Option LibrariesConfig)
    (loadResult : Except String LibrariesConfig) (libName : String) :
    Bool × Option LibrariesConfig :=
  let p := get_libraries_config cache loadResult
  (p.1.system_libs.contains libName, p.2)

/-- Embedding of `get_pkg_for_lib` from src/configuration.rs lines 46-48. -/
def get_pkg_for_lib (cache : Option LibrariesConfig)
    (loadResult : Except String LibrariesConfig) (libName : String) :
    Option String × Option LibrariesConfig :=
  let p := get_libraries_config cache loadResult
  (lookupMap p.1.lib_to_pkg_map libName, p.2)

/-- A locate oracle for concrete evaluations: the `which nix-locate`
probe fails, so the external index is unavailable. -/
def oracleNone : LocateOracle :=
  { available := false, strict := fun _ => none, loose := fun _ => none }

/-! ## Auxiliary lemmas -/

theorem leChars_cons_cons (a b : Char) (as1 bs1 : List Char) :
    leChars (a :: as1) (b :: bs1)
      = if a = b then leChars as1 bs1 else decide (a.toNat < b.toNat) := rfl

theorem char_eq_of_toNat_eq {a b : Char} (h : a.toNat = b.toNat) : a = b :=
  Char.eq_of_val_eq (UInt32.toNat.inj h)

theorem string_eq_of_toList_eq {a b : String} (h : a.toList = b.toList) : a = b := by
  cases a
  cases b
  simp only [String.toList] at h
  simp [h]

theorem leChars_total : ∀ a b : List Char, leChars a b = true ∨ leChars b a = true := by
  intro a
  induction a with
  | nil => intro b; exact Or.inl rfl
  | cons x xs ih =>
    intro b
    cases b with
    | nil => exact Or.inr rfl
    | cons y ys =>
      by_cases hxy : x = y
      · subst hxy
        rcases ih ys with h | h
        · exact Or.inl (by rw [leChars_cons_cons, if_pos rfl]; exact h)
        · exact Or.inr (by rw [leChars_cons_cons, if_pos rfl]; exact h)
      · have hnn : x.toNat ≠ y.toNat := fun hn => hxy (char_eq_of_toNat_eq hn)
        rcases Nat.lt_or_ge x.toNat y.toNat with h | h
        · exact Or.inl (by rw [leChars_cons_cons, if_neg hxy]; exact decide_eq_true h)
        · have h2 : y.toNat < x.toNat := Nat.lt_of_le_of_ne h (fun he => hnn he.symm)
          have hyx : y ≠ x := fun he => hxy he.symm
          exact Or.inr (by rw [leChars_cons_cons, if_neg hyx]; exact decide_eq_true h2)

theorem leChars_trans :
    ∀ a b c : List Char, leChars a b = true → leChars b c = true → leChars a c = true := by
  intro a
  induction a with
  | nil => intro b c _ _; rfl
  | cons x xs ih =>
    intro b c hab hbc
    cases b with
    | nil => simp [leChars] at hab
    | cons y ys =>
      cases c with
      | nil => simp [leChars] at hbc
      | cons z zs =>
        by_cases hxy : x = y
        · subst hxy
          rw [leChars_cons_cons, if_pos rfl] at hab
          by_cases hxz : x = z
          · subst hxz
            rw [leChars_cons_cons, if_pos rfl] at hbc ⊢
            exact ih ys zs hab hbc
          · rw [leChars_cons_cons, if_neg hxz] at hbc ⊢
            exact hbc
        · rw [leChars_cons_cons, if_neg hxy] at hab
          have hxyn : x.toNat < y.toNat := of_decide_eq_true hab
          by_cases hyz : y = z
          · subst hyz
            rw [leChars_cons_cons, if_neg hxy]
            exact decide_eq_true hxyn
          · rw [leChars_cons_cons, if_neg hyz] at hbc
            have hyzn : y.toNat < z.toNat := of_decide_eq_true hbc
            have hxzn : x.toNat < z.toNat := Nat.lt_trans hxyn hyzn
            have hxz : x ≠ z := fun he => absurd hxzn (by rw [he]; exact Nat.lt_irrefl _)
            rw [leChars_cons_cons, if_neg hxz]
            exact decide_eq_true hxzn

theorem leChars_antisymm :
    ∀ a b : List Char, leChars a b = true → leChars b a = true → a = b := by
  intro a
  induction a with
  | nil =>
    intro b _ hba
    cases b with
    | nil => rfl
    | cons y ys => simp [leChars] at hba
  | cons x xs ih =>
    intro b hab hba
    cases b with
    | nil => simp [leChars] at hab
    | cons y ys =>
      by_cases hxy : x = y
      · subst hxy
        rw [leChars_cons_cons, if_pos rfl] at hab hba
        rw [ih ys hab hba]
      · rw [leChars_cons_cons, if_neg hxy] at hab
        have hyx : y ≠ x := fun he => hxy he.symm
        rw [leChars_cons_cons, if_neg hyx] at hba
        exact absurd (of_decide_eq_true hba) (Nat.lt_asymm (of_decide_eq_true hab))

theorem strLe_total (a b : String) : strLeRel a b ∨ strLeRel b a :=
  leChars_total a.toList b.toList

theorem strLe_trans {a b c : String} (h1 : strLeRel a b) (h2 : strLeRel b c) : strLeRel a c :=
  leChars_trans a.toList b.toList c.toList h1 h2

theorem strLe_antisymm {a b : String} (h1 : strLeRel a b) (h2 : strLeRel b a) : a = b :=
  string_eq_of_toList_eq (leChars_antisymm a.toList b.toList h1 h2)

theorem strSort_perm (l : List String) : List.Perm (strSort l) l :=
  List.perm_insertionSort strLeRel l

theorem strSort_sorted (l : List String) : (strSort l).Sorted strLeRel := by
  haveI : IsTotal String strLeRel := ⟨strLe_total⟩
  haveI : IsTrans String strLeRel := ⟨fun _ _ _ => strLe_trans⟩
  exact List.sorted_insertionSort strLeRel l

theorem mem_strSort {a : String} {l : List String} : a ∈ strSort l ↔ a ∈ l :=
  (strSort_perm l).mem_iff

theorem strSort_eq_of_perm {l1 l2 : List String} (h : List.Perm l1 l2) :
    strSort l1 = strSort l2 := by
  haveI : IsAntisymm String strLeRel := ⟨fun _ _ => strLe_antisymm⟩
  exact List.eq_of_perm_of_sorted
    ((strSort_perm l1).trans (h.trans (strSort_perm l2).symm))
    (strSort_sorted l1) (strSort_sorted l2)

theorem applyInfoLine_deps (info : PackageInfo) (line : String) :
    (applyInfoLine info line).deps = info.deps := by
  unfold applyInfoLine
  repeat' split
  all_goals rfl

theorem foldl_applyInfoLine_deps (lines : List String) (info : PackageInfo) :
    (lines.foldl applyInfoLine info).deps = info.deps := by
  induction lines generalizing info with
  | nil => rfl
  | cons l ls ih => rw [List.foldl_cons, ih, applyInfoLine_deps]

theorem mem_resolved_of_needed (loc : LocateOracle) (req bund : List String)
    (lib pkg : String) (h : lib ∈ neededLibs req bund)
    (hres : resolve_lib_via_locate loc lib = some pkg) :
    pkg ∈ (scanResolveCore loc req bund).1 := by
  show pkg ∈ strSort ((neededLibs req bund).filterMap (resolve_lib_via_locate loc)).dedup
  exact mem_strSort.mpr (List.mem_dedup.mpr (List.mem_filterMap.mpr ⟨lib, h, hres⟩))

theorem mem_missing_iff (loc : LocateOracle) (req bund : List String)
    (lib : String) (h : lib ∈ neededLibs req bund) :
    lib ∈ (scanResolveCore loc req bund).2 ↔ resolve_lib_via_locate loc lib = none := by
  show lib ∈ strSort ((neededLibs req bund).filter
      (fun l => (resolve_lib_via_locate loc l).isNone)) ↔ _
  rw [mem_strSort, List.mem_filter]
  constructor
  · rintro ⟨-, h2⟩
    exact Option.isNone_iff_eq_none.mp h2
  · intro h2
    exact ⟨h, by simp [h2]⟩

theorem map_filter_trim_removal (bund : List String) (lib : String)
    (hc : neededPred bund lib = false) (req : List String) :
    ((req.filter (fun l => decide (rustTrim l ≠ lib))).map rustTrim).filter (neededPred bund)
      = (req.map rustTrim).filter (neededPred bund) := by
  induction req with
  | nil => rfl
  | cons a t ih =>
    rw [List.filter_cons]
    by_cases ha : rustTrim a = lib
    · have h1 : ¬ (decide (rustTrim a ≠ lib) = true) := by simp [ha]
      have h2 : ¬ (neededPred bund (rustTrim a) = true) := by
        rw [ha, hc]
        exact Bool.false_ne_true
      rw [if_neg h1, ih, List.map_cons, List.filter_cons, if_neg h2]
    · have h1 : decide (rustTrim a ≠ lib) = true := by simp [ha]
      rw [if_pos h1]
      simp only [List.map_cons, List.filter_cons, ih]

theorem neededLibs_removal (bund : List String) (lib : String)
    (hc : neededPred bund lib = false) (req : List String) :
    neededLibs (req.filter (fun l => decide (rustTrim l ≠ lib))) bund
      = neededLibs req bund := by
  unfold neededLibs
  rw [map_filter_trim_removal bund lib hc req]

theorem scanResolveCore_removal (loc : LocateOracle) (req bund : List String)
    (lib : String) (hc : neededPred bund lib = false) :
    scanResolveCore loc (req.filter (fun l => decide (rustTrim l ≠ lib))) bund
      = scanResolveCore loc req bund := by
  simp only [scanResolveCore]
  rw [neededLibs_removal bund lib hc req]

/-! ## Claims -/

/-- C1, counterexample: in the inline pipeline of `main`, a required
library with an explicit mapping (both in `check_common_libs` and in
`LIB_TO_PKG_MAP`) whose filename is also a bundled ".so" file name is
excluded by the bundled-file set difference before any mapping is
consulted, so the mapped package "gtk3" is not emitted. -/
theorem c1_counterexample :
    check_common_libs "libgtk-3.so.0" = some "gtk3"
    ∧ lookupMap LIB_TO_PKG_MAP "libgtk-3.so.0" = some "gtk3"
    ∧ mainPkgKeys false (fun _ => none) ["libgtk-3.so.0"] ["libgtk-3.so.0"] = [] := by
  refine ⟨rfl, rfl, by decide⟩

/-- C1, amended: in `scan_binary_and_resolve` a required library with an
explicit `LIB_TO_PKG_MAP` entry resolves to its mapped package name for
every bundled-file set (explicit knowledge wins even if bundled); in the
inline pipeline of `main`, by contrast, a required library whose name is
also an entry name containing ".so" is dropped by the set difference
before the mapping is consulted, contributing nothing beyond the seed. -/
theorem c1_amended :
    (∀ (loc : LocateOracle) (req bund : List String) (lib pkg : String),
        lib ∈ req → rustTrim lib = lib → lib ≠ "" → lib ∉ SYSTEM_LIBS →
        lookupMap LIB_TO_PKG_MAP lib = some pkg →
        pkg ∈ (scanResolveCore loc req bund).1)
    ∧ (∀ (isDeb : Bool) (locate : String → Option (List String))
        (entryNames : List String) (lib : String),
        lib ∈ entryNames → strContains lib ".so" = true → rustTrim lib = lib → lib ≠ "" →
        mainPkgKeys isDeb locate entryNames [lib] = seedPkgs isDeb) := by
  constructor
  · intro loc req bund lib pkg hmem htrim hne hsys hmap
    have hneed : lib ∈ neededLibs req bund := by
      unfold neededLibs
      refine List.mem_dedup.mpr (List.mem_filter.mpr ⟨List.mem_map.mpr ⟨lib, hmem, htrim⟩, ?_⟩)
      unfold neededPred
      rw [decide_eq_true_eq]
      exact ⟨hne, hsys, Or.inl (by rw [hmap]; rfl)⟩
    have hres : resolve_lib_via_locate loc lib = some pkg := by
      unfold resolve_lib_via_locate
      rw [hmap]
    exact mem_resolved_of_needed loc req bund lib pkg hneed hres
  · intro isDeb locate entries lib hmem hso htrim hne
    show ((((([lib].map rustTrim).filter (fun l => decide (l ≠ ""))).dedup).filter
        (fun l => decide (l ∉ entries.filter (fun n => strContains n ".so")))).foldl
        (mainResolveStep locate) (seedPkgs isDeb)) = seedPkgs isDeb
    have hint : lib ∈ entries.filter (fun n => strContains n ".so") :=
      List.mem_filter.mpr ⟨hmem, hso⟩
    have hall : (([lib].map rustTrim).filter (fun l => decide (l ≠ ""))).dedup = [lib] := by
      simp [htrim, hne]
    rw [hall]
    have hmiss : [lib].filter
        (fun l => decide (l ∉ entries.filter (fun n => strContains n ".so"))) = [] := by
      simp [hmem, hso]
    rw [hmiss]
    rfl

/-- C1, amended, witness: the mapped library "libz.so.1" resolves to
"zlib" in `scan_binary_and_resolve` even though it is bundled; a bundled
required library in main's pipeline contributes nothing. -/
theorem c1_amended_witness :
    "zlib" ∈ (scanResolveCore oracleNone ["libz.so.1"] ["libz.so.1"]).1
    ∧ mainPkgKeys false (fun _ => none) ["libfoo.so.2"] ["libfoo.so.2"] = seedPkgs false := by
  constructor
  · exact c1_amended.1 oracleNone ["libz.so.1"] ["libz.so.1"] "libz.so.1" "zlib"
      (by decide) (by decide) (by decide) (by decide) (by decide)
  · exact c1_amended.2 false (fun _ => none) ["libfoo.so.2"] "libfoo.so.2"
      (by decide) (by decide) (by decide) (by decide)

/-- C2, counterexample: `resolve_lib_via_locate` returns the last dotted
segment of the FIRST candidate line even when that line carries a
parenthesized alternate-output annotation and a later line does not; and
for a dotted path ending in the output-suffix token "dev" it returns the
suffix token itself instead of stripping it. -/
theorem c2_counterexample :
    resolve_lib_via_locate
      { available := true,
        strict := fun _ => some (true, ["aaa.bbb (x)", "ccc.ddd"]),
        loose := fun _ => some [] } "libzzz.so.9" = some "bbb (x)"
    ∧ strContainsChar "aaa.bbb (x)" '(' = true
    ∧ strContainsChar "ccc.ddd" '(' = false
    ∧ ("bbb (x)" ≠ "ccc.ddd" ∧ "bbb (x)" ≠ "ddd")
    ∧ resolve_lib_via_locate
      { available := true,
        strict := fun _ => some (true, ["legacy.foo.dev"]),
        loose := fun _ => none } "libzzz.so.9" = some "dev"
    ∧ "dev" ≠ "foo" := by
  exact ⟨by decide, by decide, by decide, ⟨by decide, by decide⟩, by decide, by decide⟩

/-- C2, amended: `resolve_lib_via_locate` takes the first candidate line
unconditionally (no parenthesis filtering, no suffix stripping) and
returns its last dot-separated segment; the inline lookup of `main` does
take the first line without a parenthesis but inserts the whole trimmed
line, extracting no package segment. -/
theorem c2_amended :
    (∀ (lib l : String) (ls : List String) (loose : String → Option (List String)),
        lookupMap LIB_TO_PKG_MAP lib = none → rustTrim l ≠ "" →
        resolve_lib_via_locate
          { available := true, strict := fun _ => some (true, l :: ls), loose := loose } lib
          = some (lastDotSegment (rustTrim l)))
    ∧ (∀ (lines : List String) (p : String),
        mainLocatePick lines = some p →
        ∃ l, l ∈ lines ∧ strContainsChar l '(' = false ∧ p = rustTrim l) := by
  constructor
  · intro lib l ls loose hmap htrim
    have h1 : firstLinePkg (l :: ls) = some (lastDotSegment (rustTrim l)) := by
      show (if rustTrim l = "" then none else some (lastDotSegment (rustTrim l))) = _
      rw [if_neg htrim]
    have key : resolve_lib_via_locate
        { available := true, strict := fun _ => some (true, l :: ls), loose := loose } lib
        = (match lookupMap LIB_TO_PKG_MAP lib with
           | some pkg => some pkg
           | none =>
             match firstLinePkg (l :: ls) with
             | some pkg => some pkg
             | none =>
               match loose lib with
               | none => none
               | some lines2 => firstLinePkg lines2) := rfl
    rw [key, hmap, h1]
  · intro lines p h
    unfold mainLocatePick at h
    cases hf : lines.find? (fun l => !(strContainsChar l '(')) with
    | none => rw [hf] at h; cases h
    | some q =>
      rw [hf] at h
      have h2 : (if rustTrim q = "" then none else some (rustTrim q)) = some p := h
      by_cases hq : rustTrim q = ""
      · rw [if_pos hq] at h2; cases h2
      · rw [if_neg hq] at h2
        have hp : p = rustTrim q := (Option.some.inj h2).symm
        refine ⟨q, List.mem_of_find?_eq_some hf, ?_, hp⟩
        have hpred := List.find?_some hf
        simpa using hpred

/-- C2, amended, witness: with a single-line answer "x.y" the resolver
returns its last dotted segment "y"; main's picker at a concrete line
list returns the whole paren-free trimmed line. -/
theorem c2_amended_witness :
    resolve_lib_via_locate
      { available := true, strict := fun _ => some (true, ["x.y"]),
        loose := fun _ => none } "libzzz.so.9" = some "y"
    ∧ ∃ l, l ∈ ["(a", "b.c"] ∧ strContainsChar l '(' = false ∧ "b.c" = rustTrim l := by
  constructor
  · exact (c2_amended.1 "libzzz.so.9" "x.y" [] (fun _ => none) (by decide) (by decide)).trans
      (by decide)
  · exact c2_amended.2 ["(a", "b.c"] "b.c" (by decide)

/-- C3, counterexample: the `ar` unpack failure does make
`scan_binary_and_resolve` return an error, but `get_nix_shell` catches
exactly that error and still returns a successful `PackageInfo` built
from the metadata alone — the pipeline does not halt with a non-zero
result. -/
theorem c3_counterexample :
    scan_binary_and_resolve false true true oracleNone [] []
      = Except.error "Failed to unpack deb archive"
    ∧ get_nix_shell "package.deb" false (Except.ok (true, ["Package: foo"]))
      (Except.error "Failed to unpack deb archive")
      = Except.ok { name := "foo" } :=
  ⟨rfl, rfl⟩

/-- C3, amended: failure to unpack the archive makes
`scan_binary_and_resolve` return the error "Failed to unpack deb
archive", but `get_nix_shell` swallows any scan error and returns a
successful metadata-only `PackageInfo` with an empty dependency list;
the pipeline continues. -/
theorem c3_amended (fname : String) (hf : ¬ (fname = "")) (mo : Bool × List String)
    (e : String) (dtf tok : Bool) (loc : LocateOracle) (req bund : List String) :
    scan_binary_and_resolve false dtf tok loc req bund
      = Except.error "Failed to unpack deb archive"
    ∧ ∃ info, get_nix_shell fname false (Except.ok mo) (Except.error e) = Except.ok info
      ∧ info.deps = [] := by
  constructor
  · rfl
  · obtain ⟨succ, lines⟩ := mo
    unfold get_nix_shell
    rw [if_neg hf]
    refine ⟨(if succ then lines.foldl applyInfoLine {} else {}), rfl, ?_⟩
    cases succ with
    | false => rfl
    | true => exact foldl_applyInfoLine_deps lines {}

/-- C3, amended, witness at concrete inputs. -/
theorem c3_amended_witness :
    scan_binary_and_resolve false true true oracleNone ["libz.so.1"] []
      = Except.error "Failed to unpack deb archive"
    ∧ ∃ info, get_nix_shell "package.deb" false (Except.ok (true, ["Package: foo"]))
      (Except.error "scan failed") = Except.ok info ∧ info.deps = [] :=
  c3_amended "package.deb" (by decide) (true, ["Package: foo"]) "scan failed"
    true true oracleNone ["libz.so.1"] []

/-- C4, counterexample: the resolved list and the missing list are NOT
always disjoint: with required lines ["libgtk-3.so.0", "gtk3"], no
bundled files and the external index unavailable, the mapped package
name of the first library equals the unresolved filename of the second,
so "gtk3" appears in both outputs. -/
theorem c4_counterexample :
    scanResolveCore oracleNone ["libgtk-3.so.0", "gtk3"] [] = (["gtk3"], ["gtk3"])
    ∧ "gtk3" ∈ (scanResolveCore oracleNone ["libgtk-3.so.0", "gtk3"] []).1
    ∧ "gtk3" ∈ (scanResolveCore oracleNone ["libgtk-3.so.0", "gtk3"] []).2 :=
  ⟨by decide, by decide, by decide⟩

/-- C4, amended: every required library that survives the skip filters
(member of `neededLibs`) lands in exactly one of the two outputs — its
mapped package name is in the resolved list exactly when resolution
succeeds, and the library itself is in the missing list exactly when
resolution fails; but the two string lists need not be disjoint, since a
resolved package name may coincide with another unresolved library's
filename. -/
theorem c4_amended (loc : LocateOracle) (req bund : List String) (lib : String)
    (h : lib ∈ neededLibs req bund) :
    (∀ pkg, resolve_lib_via_locate loc lib = some pkg →
      pkg ∈ (scanResolveCore loc req bund).1)
    ∧ (lib ∈ (scanResolveCore loc req bund).2 ↔ resolve_lib_via_locate loc lib = none) :=
  ⟨fun pkg hres => mem_resolved_of_needed loc req bund lib pkg h hres,
   mem_missing_iff loc req bund lib h⟩

/-- C4, amended, witness at a concrete needed library. -/
theorem c4_amended_witness :
    "zlib" ∈ (scanResolveCore oracleNone ["libz.so.1"] []).1
    ∧ ("libz.so.1" ∈ (scanResolveCore oracleNone ["libz.so.1"] []).2 ↔
      resolve_lib_via_locate oracleNone "libz.so.1" = none) := by
  have h := c4_amended oracleNone ["libz.so.1"] [] "libz.so.1" (by decide)
  exact ⟨h.1 "zlib" (by decide), h.2⟩

/-- C5: a required library in `SYSTEM_LIBS` is skipped entirely by
`scan_binary_and_resolve`: it never appears in the missing list, and
removing all its occurrences from the required lines leaves both outputs
unchanged, so nothing in the resolved set derives from it. -/
theorem c5_system_libs_skipped (loc : LocateOracle) (req bund : List String)
    (lib : String) (h : lib ∈ SYSTEM_LIBS) :
    lib ∉ (scanResolveCore loc req bund).2
    ∧ scanResolveCore loc (req.filter (fun l => decide (rustTrim l ≠ lib))) bund
      = scanResolveCore loc req bund := by
  have hc : neededPred bund lib = false := by
    unfold neededPred
    rw [decide_eq_false_iff_not]
    rintro ⟨-, hsys, -⟩
    exact hsys h
  constructor
  · intro hmem
    have hmem2 : lib ∈ strSort ((neededLibs req bund).filter
        (fun l => (resolve_lib_via_locate loc l).isNone)) := hmem
    have hneed : lib ∈ neededLibs req bund :=
      (List.mem_filter.mp (mem_strSort.mp hmem2)).1
    have hpred := (List.mem_filter.mp (List.mem_dedup.mp hneed)).2
    rw [hc] at hpred
    exact Bool.false_ne_true hpred
  · exact scanResolveCore_removal loc req bund lib hc

/-- C5, witness: "libc.so.6" is skipped at a concrete input. -/
theorem c5_witness :
    "libc.so.6" ∉ (scanResolveCore oracleNone ["libc.so.6", "libz.so.1"] []).2
    ∧ scanResolveCore oracleNone
        (["libc.so.6", "libz.so.1"].filter (fun l => decide (rustTrim l ≠ "libc.so.6"))) []
      = scanResolveCore oracleNone ["libc.so.6", "libz.so.1"] [] :=
  c5_system_libs_skipped oracleNone ["libc.so.6", "libz.so.1"] [] "libc.so.6" (by decide)

/-- C6: a required library that is bundled, has no `LIB_TO_PKG_MAP`
entry (and in particular is not handled as a system library, which the
proof does not even need), is self-satisfied: removing all its
occurrences from the required lines leaves both the resolved and the
missing output unchanged — it contributes nothing to either. -/
theorem c6_bundled_self_satisfied (loc : LocateOracle) (req bund : List String)
    (lib : String) (hb : lib ∈ bund) (hm : lookupMap LIB_TO_PKG_MAP lib = none) :
    scanResolveCore loc (req.filter (fun l => decide (rustTrim l ≠ lib))) bund
      = scanResolveCore loc req bund := by
  have hc : neededPred bund lib = false := by
    unfold neededPred
    rw [decide_eq_false_iff_not]
    rintro ⟨-, -, hor⟩
    cases hor with
    | inl h1 => rw [hm] at h1; cases h1
    | inr h2 => exact h2 hb
  exact scanResolveCore_removal loc req bund lib hc

/-- C6, witness: the spec scenario required = ["libbar.so.1"],
bundled = ["libbar.so.1"], no mapping: resolved and missing both
empty. -/
theorem c6_witness :
    scanResolveCore oracleNone
        (["libbar.so.1"].filter (fun l => decide (rustTrim l ≠ "libbar.so.1")))
        ["libbar.so.1"]
      = scanResolveCore oracleNone ["libbar.so.1"] ["libbar.so.1"]
    ∧ scanResolveCore oracleNone ["libbar.so.1"] ["libbar.so.1"] = ([], []) :=
  ⟨c6_bundled_self_satisfied oracleNone ["libbar.so.1"] ["libbar.so.1"] "libbar.so.1"
      (by decide) (by decide),
   by decide⟩

/-- C7: both output lists of `scan_binary_and_resolve` are sorted in the
lexicographic order, and the outputs are identical for any two required
line lists that are permutations of each other, so discovery order does
not matter. -/
theorem c7_sorted_deterministic (loc : LocateOracle) (bund req1 req2 : List String)
    (h : List.Perm req1 req2) :
    (scanResolveCore loc req1 bund).1.Sorted strLeRel
    ∧ (scanResolveCore loc req1 bund).2.Sorted strLeRel
    ∧ scanResolveCore loc req1 bund = scanResolveCore loc req2 bund := by
  refine ⟨strSort_sorted _, strSort_sorted _, ?_⟩
  have hn : List.Perm (neededLibs req1 bund) (neededLibs req2 bund) :=
    ((h.map rustTrim).filter (neededPred bund)).dedup
  show (strSort ((neededLibs req1 bund).filterMap (resolve_lib_via_locate loc)).dedup,
        strSort ((neededLibs req1 bund).filter
          (fun lib => (resolve_lib_via_locate loc lib).isNone)))
      = (strSort ((neededLibs req2 bund).filterMap (resolve_lib_via_locate loc)).dedup,
        strSort ((neededLibs req2 bund).filter
          (fun lib => (resolve_lib_via_locate loc lib).isNone)))
  rw [Prod.mk.injEq]
  exact ⟨strSort_eq_of_perm (hn.filterMap (resolve_lib_via_locate loc)).dedup,
         strSort_eq_of_perm (hn.filter (fun lib => (resolve_lib_via_locate loc lib).isNone))⟩

/-- C7, witness: concrete permuted inputs give sorted, equal outputs. -/
theorem c7_witness :
    (scanResolveCore oracleNone ["libz.so.1", "libexpat.so.1"] []).1.Sorted strLeRel
    ∧ (scanResolveCore oracleNone ["libz.so.1", "libexpat.so.1"] []).2.Sorted strLeRel
    ∧ scanResolveCore oracleNone ["libz.so.1", "libexpat.so.1"] []
      = scanResolveCore oracleNone ["libexpat.so.1", "libz.so.1"] [] :=
  c7_sorted_deterministic oracleNone [] ["libz.so.1", "libexpat.so.1"]
    ["libexpat.so.1", "libz.so.1"] (by decide)

/-- C8: loading the knowledge base never fails the process — on any load
error the hardcoded default configuration is used — and the first
result is cached in the `OnceLock` cell and returned unchanged by every
later call, including the `is_system_lib` and `get_pkg_for_lib`
lookups, whatever a later load would have produced. -/
theorem c8_kb_load_cached :
    ∀ (e : String) (r r2 : Except String LibrariesConfig) (n1 n2 : String),
      (get_libraries_config none (Except.error e)).1 = defaultLibrariesConfig
      ∧ get_libraries_config (get_libraries_config none r).2 r2
        = ((get_libraries_config none r).1, (get_libraries_config none r).2)
      ∧ (is_system_lib (get_libraries_config none r).2 r2 n1).1
        = (get_libraries_config none r).1.system_libs.contains n1
      ∧ (get_pkg_for_lib (get_libraries_config none r).2 r2 n2).1
        = lookupMap (get_libraries_config none r).1.lib_to_pkg_map n2 := by
  intro e r r2 n1 n2
  refine ⟨rfl, ?_, ?_, ?_⟩
  all_goals cases r <;> rfl

/-- C9: when the resolved key set contains both "qt6.qtbase" and
"qt5.qtbase", reconciliation keeps exactly the entries without the
"qt5" name prefix, removing the whole older family and keeping the
newer one. -/
theorem c9_qt_conflict (pkgs : List String)
    (h6 : "qt6.qtbase" ∈ pkgs) (h5 : "qt5.qtbase" ∈ pkgs) :
    reconcile pkgs = pkgs.filter (fun k => !(rustStartsWith k "qt5"))
    ∧ ∀ p, p ∈ reconcile pkgs ↔ (p ∈ pkgs ∧ rustStartsWith p "qt5" = false) := by
  have he : reconcile pkgs = pkgs.filter (fun k => !(rustStartsWith k "qt5")) := by
    unfold reconcile
    rw [if_pos ⟨h6, h5⟩]
  refine ⟨he, fun p => ?_⟩
  rw [he, List.mem_filter]
  simp

/-- C9, witness: the spec scenario reconciles to the qt6 entry only. -/
theorem c9_witness :
    reconcile ["qt6.qtbase", "qt5.qtbase"]
      = ["qt6.qtbase", "qt5.qtbase"].filter (fun k => !(rustStartsWith k "qt5"))
    ∧ (∀ p, p ∈ reconcile ["qt6.qtbase", "qt5.qtbase"] ↔
        (p ∈ ["qt6.qtbase", "qt5.qtbase"] ∧ rustStartsWith p "qt5" = false))
    ∧ reconcile ["qt6.qtbase", "qt5.qtbase"] = ["qt6.qtbase"] := by
  have h := c9_qt_conflict ["qt6.qtbase", "qt5.qtbase"] (by decide) (by decide)
  exact ⟨h.1, h.2, by decide⟩

/-- C10: calling `get_nix_shell` with the empty filename returns the
error "Filename cannot be empty" whatever the metadata command or the
dependency scan would have produced, so the failure happens before
either is consulted and no `PackageInfo` is produced. -/
theorem c10_empty_filename :
    ∀ (skipDeps : Bool) (metaCmd : Except String (Bool × List String))
      (scan : Except String (List String × List String)),
      get_nix_shell "" skipDeps metaCmd scan = Except.error "Filename cannot be empty" :=
  fun _ _ _ => rfl

end App2nix
